import Mathlib

/-!
Shallow embedding of `src/server.py` (Snipe-IT MCP server).

The server exposes seven tool dispatchers.  Each dispatcher validates its
inputs, makes calls on an external Snipe-IT client (the "collaborator"),
and returns a Python dict (the response envelope).  We embed Python dicts
as ordered association lists of `String × PyVal`, the collaborator as a
`World` of oracle functions (one per client method, each returning either
a result or a raised exception), and each dispatcher as a pure Lean
function from the `World` and its arguments to the returned envelope
together with the ordered trace of collaborator calls it performed.

Python truthiness is modelled explicitly (`none`/`0`/empty string/empty
list are falsy).  Exceptions of the snipeit library are the inductive
`SnipeErr`; the `try/except` ladders at the bottom of each dispatcher
become the `mapErr…` functions.  Float-valued fields (`purchase_cost`,
maintenance `cost`) are modelled as `Int`: the dispatchers never compute
with them, only test them for `None` and pass them through.
-/

namespace SnipeMCP

/-- Python values as they occur in the dispatchers' dicts. -/
inductive PyVal where
  | vNone
  | vBool (b : Bool)
  | vInt (n : Int)
  | vStr (s : String)
  | vList (xs : List PyVal)
  | vDict (kvs : List (String × PyVal))

/-- A Python dict, ordered as built by the source. -/
abbrev Env := List (String × PyVal)

/-- Exceptions raised by the snipeit client library, by handler class.
`notFound`, `auth` and `validation` are the three `SnipeITException`
subclasses with their own `except` clauses in some dispatchers; `snipe`
is any other `SnipeITException`; `other` is any non-snipeit exception. -/
inductive SnipeErr where
  | notFound (msg : String)
  | auth (msg : String)
  | validation (msg : String)
  | snipe (msg : String)
  | other (msg : String)

/-- An entity object returned by the client (asset or consumable): an `id`
attribute plus arbitrary further attributes read via `getattr(·, k, None)`. -/
structure AssetObj where
  id : Int
  attrs : List (String × PyVal) := []

/-- The second argument the label branch passes to `client.assets.labels`:
either the resolved asset objects or the raw tag strings. -/
inductive LabelsArg where
  | assets (xs : List AssetObj)
  | tags (ts : List String)

/-- One collaborator (Snipe-IT client) call, with its arguments, as recorded
in a dispatcher's call trace. -/
inductive CollabCall where
  | assetsCreate (kwargs : Env)
  | assetsGet (id : Int)
  | assetsGetByTag (tag : String)
  | assetsGetBySerial (serial : String)
  | assetsList (params : Env)
  | assetsPatch (id : Int) (kwargs : Env)
  | assetsDelete (id : Int)
  | assetCheckout (assetId : Int) (kwargs : Env)
  | assetCheckin (assetId : Int) (kwargs : Env)
  | assetAudit (assetId : Int) (kwargs : Env)
  | assetRestore (assetId : Int)
  | uploadFiles (assetId : Int) (paths : List String) (notes : Option String)
  | listFiles (assetId : Int)
  | downloadFile (assetId : Int) (fileId : Int) (savePath : String)
  | deleteFile (assetId : Int) (fileId : Int)
  | labels (savePath : String) (arg : LabelsArg)
  | createMaintenance (kwargs : Env)
  | getLicenses (assetId : Int)
  | consumablesCreate (kwargs : Env)
  | consumablesGet (id : Int)
  | consumablesList (params : Env)
  | consumablesPatch (id : Int) (kwargs : Env)
  | consumablesDelete (id : Int)

/-- The collaborator: one oracle function per client method used by the
server, each returning the method's result or the exception it raises.
`clientErr` models `get_snipeit_client()`, which raises a
`SnipeITException` when the URL or token environment variable is unset.
Defaults make every call succeed on a bare entity, so concrete test
worlds only override the fields they care about. -/
structure World where
  clientErr : Option SnipeErr := none
  assetsGet : Int → Except SnipeErr AssetObj := fun i => .ok { id := i }
  assetsGetByTag : String → Except SnipeErr AssetObj := fun _ => .ok { id := 1 }
  assetsGetBySerial : String → Except SnipeErr AssetObj := fun _ => .ok { id := 1 }
  assetsCreate : Env → Except SnipeErr AssetObj := fun _ => .ok { id := 1 }
  assetsList : Env → Except SnipeErr (List AssetObj) := fun _ => .ok []
  assetsPatch : Int → Env → Except SnipeErr AssetObj := fun i _ => .ok { id := i }
  assetsDelete : Int → Except SnipeErr Unit := fun _ => .ok ()
  assetCheckout : AssetObj → Env → Except SnipeErr AssetObj := fun a _ => .ok a
  assetCheckin : AssetObj → Env → Except SnipeErr AssetObj := fun a _ => .ok a
  assetAudit : AssetObj → Env → Except SnipeErr AssetObj := fun a _ => .ok a
  assetRestore : AssetObj → Except SnipeErr AssetObj := fun a => .ok a
  uploadFiles : Int → List String → Option String → Except SnipeErr PyVal :=
    fun _ _ _ => .ok .vNone
  listFiles : Int → Except SnipeErr PyVal := fun _ => .ok (.vList [])
  downloadFile : Int → Int → String → Except SnipeErr String := fun _ _ p => .ok p
  deleteFile : Int → Int → Except SnipeErr Unit := fun _ _ => .ok ()
  labels : String → LabelsArg → Except SnipeErr String := fun p _ => .ok p
  createMaintenance : Env → Except SnipeErr PyVal := fun _ => .ok .vNone
  getLicenses : Int → Except SnipeErr PyVal := fun _ => .ok (.vList [])
  consumablesGet : Int → Except SnipeErr AssetObj := fun i => .ok { id := i }
  consumablesCreate : Env → Except SnipeErr AssetObj := fun _ => .ok { id := 1 }
  consumablesList : Env → Except SnipeErr (List AssetObj) := fun _ => .ok []
  consumablesPatch : Int → Env → Except SnipeErr AssetObj := fun i _ => .ok { id := i }
  consumablesDelete : Int → Except SnipeErr Unit := fun _ => .ok ()

/-- Python truthiness of an optional int (`None` and `0` are falsy). -/
def intTruthy : Option Int → Bool
  | none => false
  | some n => n != 0

/-- Python truthiness of an optional string (`None` and `""` are falsy). -/
def strTruthy : Option String → Bool
  | none => false
  | some s => s != ""

/-- Python truthiness of an optional list (`None` and `[]` are falsy). -/
def listTruthy {α : Type} : Option (List α) → Bool
  | none => false
  | some l => !l.isEmpty

/-- Dict value of an `int | None` parameter. -/
def optInt : Option Int → PyVal
  | none => .vNone
  | some n => .vInt n

/-- Helper building the singleton entry for a present optional payload
field, and nothing for an absent one. -/
def optEntry (k : String) : Option PyVal → Env
  | none => []
  | some v => [(k, v)]

/-- Embeds `getattr(obj, k, None)`. -/
def getattrN (a : AssetObj) (k : String) : PyVal :=
  (a.attrs.lookup k).getD .vNone

/-- The `{"success": False, "error": msg}` dict every failure path returns. -/
def failEnv (msg : String) : Env :=
  [("success", .vBool false), ("error", .vStr msg)]

/-- The `except` ladder of `manage_assets` (five handlers: the three
subclasses, `SnipeITException`, then bare `Exception`). -/
def mapErrManageAssets : SnipeErr → Env
  | .notFound m => failEnv ("Asset not found: " ++ m)
  | .auth m => failEnv ("Authentication failed: " ++ m)
  | .validation m => failEnv ("Validation error: " ++ m)
  | .snipe m => failEnv ("Snipe-IT error: " ++ m)
  | .other m => failEnv ("Unexpected error: " ++ m)

/-- The `except` ladder of `manage_consumables` (same five handlers,
"Consumable not found" for the first). -/
def mapErrConsumables : SnipeErr → Env
  | .notFound m => failEnv ("Consumable not found: " ++ m)
  | .auth m => failEnv ("Authentication failed: " ++ m)
  | .validation m => failEnv ("Validation error: " ++ m)
  | .snipe m => failEnv ("Snipe-IT error: " ++ m)
  | .other m => failEnv ("Unexpected error: " ++ m)

/-- The `except` ladder shared by `asset_operations`, `asset_labels`,
`asset_maintenance` and `asset_licenses`: only `SnipeITNotFoundError`,
`SnipeITException` and `Exception` handlers, so authentication and
validation faults (being `SnipeITException` subclasses) land in the
"Snipe-IT error" handler. -/
def mapErrAssetScoped : SnipeErr → Env
  | .notFound m => failEnv ("Asset not found: " ++ m)
  | .auth m => failEnv ("Snipe-IT error: " ++ m)
  | .validation m => failEnv ("Snipe-IT error: " ++ m)
  | .snipe m => failEnv ("Snipe-IT error: " ++ m)
  | .other m => failEnv ("Unexpected error: " ++ m)

/-- The `except` ladder of `asset_files`: like `mapErrAssetScoped` but the
not-found handler renders "Not found: …". -/
def mapErrFiles : SnipeErr → Env
  | .notFound m => failEnv ("Not found: " ++ m)
  | .auth m => failEnv ("Snipe-IT error: " ++ m)
  | .validation m => failEnv ("Snipe-IT error: " ++ m)
  | .snipe m => failEnv ("Snipe-IT error: " ++ m)
  | .other m => failEnv ("Unexpected error: " ++ m)

/-- The `AssetData` pydantic model: all fields optional with `None`
defaults. -/
structure AssetData where
  status_id : Option Int := none
  model_id : Option Int := none
  asset_tag : Option String := none
  name : Option String := none
  serial : Option String := none
  purchase_date : Option String := none
  purchase_cost : Option Int := none
  order_number : Option String := none
  notes : Option String := none
  warranty_months : Option Int := none
  location_id : Option Int := none
  rtd_location_id : Option Int := none
  supplier_id : Option Int := none
  company_id : Option Int := none
  requestable : Option Bool := none

/-- Embeds `{k: v for k, v in asset_data.model_dump().items() if v is not
None}`: the payload forwarded by the create and update branches, in
pydantic field-declaration order, keeping exactly the non-`None` fields. -/
def AssetData.dumpNonNone (d : AssetData) : Env :=
  optEntry "status_id" (d.status_id.map .vInt) ++
  optEntry "model_id" (d.model_id.map .vInt) ++
  optEntry "asset_tag" (d.asset_tag.map .vStr) ++
  optEntry "name" (d.name.map .vStr) ++
  optEntry "serial" (d.serial.map .vStr) ++
  optEntry "purchase_date" (d.purchase_date.map .vStr) ++
  optEntry "purchase_cost" (d.purchase_cost.map .vInt) ++
  optEntry "order_number" (d.order_number.map .vStr) ++
  optEntry "notes" (d.notes.map .vStr) ++
  optEntry "warranty_months" (d.warranty_months.map .vInt) ++
  optEntry "location_id" (d.location_id.map .vInt) ++
  optEntry "rtd_location_id" (d.rtd_location_id.map .vInt) ++
  optEntry "supplier_id" (d.supplier_id.map .vInt) ++
  optEntry "company_id" (d.company_id.map .vInt) ++
  optEntry "requestable" (d.requestable.map .vBool)

/-- The `ConsumableData` pydantic model. -/
structure ConsumableData where
  name : Option String := none
  qty : Option Int := none
  category_id : Option Int := none
  company_id : Option Int := none
  location_id : Option Int := none
  manufacturer_id : Option Int := none
  model_number : Option String := none
  item_no : Option String := none
  order_number : Option String := none
  purchase_date : Option String := none
  purchase_cost : Option Int := none
  min_amt : Option Int := none
  notes : Option String := none

/-- Non-`None` dump of a `ConsumableData`, as forwarded by the consumable
create and update branches. -/
def ConsumableData.dumpNonNone (d : ConsumableData) : Env :=
  optEntry "name" (d.name.map .vStr) ++
  optEntry "qty" (d.qty.map .vInt) ++
  optEntry "category_id" (d.category_id.map .vInt) ++
  optEntry "company_id" (d.company_id.map .vInt) ++
  optEntry "location_id" (d.location_id.map .vInt) ++
  optEntry "manufacturer_id" (d.manufacturer_id.map .vInt) ++
  optEntry "model_number" (d.model_number.map .vStr) ++
  optEntry "item_no" (d.item_no.map .vStr) ++
  optEntry "order_number" (d.order_number.map .vStr) ++
  optEntry "purchase_date" (d.purchase_date.map .vStr) ++
  optEntry "purchase_cost" (d.purchase_cost.map .vInt) ++
  optEntry "min_amt" (d.min_amt.map .vInt) ++
  optEntry "notes" (d.notes.map .vStr)

/-- The `checkout_to_type` literal of `CheckoutData`. -/
inductive CheckoutToType where
  | user
  | asset
  | location

/-- Its Python string value. -/
def CheckoutToType.toStr : CheckoutToType → String
  | .user => "user"
  | .asset => "asset"
  | .location => "location"

/-- The `CheckoutData` pydantic model (`checkout_to_type` and
`assigned_to_id` required, the rest optional). -/
structure CheckoutData where
  checkout_to_type : CheckoutToType
  assigned_to_id : Int
  expected_checkin : Option String := none
  checkout_at : Option String := none
  note : Option String := none
  name : Option String := none

/-- The `CheckinData` pydantic model. -/
structure CheckinData where
  note : Option String := none
  location_id : Option Int := none

/-- The `AuditData` pydantic model. -/
structure AuditData where
  location_id : Option Int := none
  note : Option String := none
  next_audit_date : Option String := none

/-- The `MaintenanceData` pydantic model (three required fields). -/
structure MaintenanceData where
  asset_improvement : String
  supplier_id : Int
  title : String
  cost : Option Int := none
  start_date : Option String := none
  completion_date : Option String := none
  notes : Option String := none

/-- The kwargs the checkout branch builds: the two mandatory fields, then
each optional field appended only when truthy (so an empty string is
dropped). -/
def checkoutKwargs (cd : CheckoutData) : Env :=
  [("checkout_to_type", .vStr cd.checkout_to_type.toStr),
   ("assigned_to_id", .vInt cd.assigned_to_id)] ++
  (if strTruthy cd.expected_checkin then
    optEntry "expected_checkin" (cd.expected_checkin.map .vStr) else []) ++
  (if strTruthy cd.checkout_at then
    optEntry "checkout_at" (cd.checkout_at.map .vStr) else []) ++
  (if strTruthy cd.note then optEntry "note" (cd.note.map .vStr) else []) ++
  (if strTruthy cd.name then optEntry "name" (cd.name.map .vStr) else [])

/-- The kwargs the checkin branch builds: empty when `checkin_data` is
absent; otherwise `note` and `location_id` appended only when truthy (so
`location_id = 0` and an empty note are dropped). -/
def checkinKwargs : Option CheckinData → Env
  | none => []
  | some cd =>
    (if strTruthy cd.note then optEntry "note" (cd.note.map .vStr) else []) ++
    (if intTruthy cd.location_id then
      optEntry "location_id" (cd.location_id.map .vInt) else [])

/-- The kwargs the audit branch builds (same truthiness filtering). -/
def auditKwargs : Option AuditData → Env
  | none => []
  | some ad =>
    (if intTruthy ad.location_id then
      optEntry "location_id" (ad.location_id.map .vInt) else []) ++
    (if strTruthy ad.note then optEntry "note" (ad.note.map .vStr) else []) ++
    (if strTruthy ad.next_audit_date then
      optEntry "next_audit_date" (ad.next_audit_date.map .vStr) else [])

/-- The kwargs built for `create_maintenance`: asset id plus the three
mandatory fields, then `cost` when not `None` (`0.0` is forwarded) and
the remaining fields when truthy. -/
def maintenanceKwargs (asset_id : Int) (md : MaintenanceData) : Env :=
  [("asset_id", .vInt asset_id),
   ("asset_improvement", .vStr md.asset_improvement),
   ("supplier_id", .vInt md.supplier_id),
   ("title", .vStr md.title)] ++
  optEntry "cost" (md.cost.map .vInt) ++
  (if strTruthy md.start_date then
    optEntry "start_date" (md.start_date.map .vStr) else []) ++
  (if strTruthy md.completion_date then
    optEntry "completion_date" (md.completion_date.map .vStr) else []) ++
  (if strTruthy md.notes then optEntry "notes" (md.notes.map .vStr) else [])

/-- The `action` literal of `manage_assets` and `manage_consumables`. -/
inductive CrudAction where
  | create
  | get
  | list
  | update
  | delete

/-- The `order` literal. -/
inductive SortOrder where
  | asc
  | desc

/-- Its Python string value. -/
def SortOrder.toStr : SortOrder → String
  | .asc => "asc"
  | .desc => "desc"

/-- The params dict the list branches build: `limit` and `offset` always
(possibly `None`), then `search`, `sort`, `order` only when truthy. -/
def listParams (limit offset : Option Int) (search sort : Option String)
    (order : Option SortOrder) : Env :=
  [("limit", optInt limit), ("offset", optInt offset)] ++
  (if strTruthy search then optEntry "search" (search.map .vStr) else []) ++
  (if strTruthy sort then optEntry "sort" (sort.map .vStr) else []) ++
  (match order with
   | some o => [("order", .vStr o.toStr)]
   | none => [])

/-- Which lookup the get branch of `manage_assets` performs: the
`if asset_tag: … elif serial: … elif asset_id: … else: error` ladder,
decided by Python truthiness. -/
inductive GetKey where
  | byTag (t : String)
  | bySerial (s : String)
  | byId (i : Int)
  | missing

/-- The ladder itself: tag first, then serial, then id, each only when
truthy. -/
def getKeyOf (asset_id : Option Int) (asset_tag serial : Option String) : GetKey :=
  if strTruthy asset_tag then .byTag (asset_tag.getD "")
  else if strTruthy serial then .bySerial (serial.getD "")
  else if intTruthy asset_id then .byId (asset_id.getD 0)
  else .missing

/-- The trimmed asset projection returned by the create branch. -/
def assetCreateEnv (a : AssetObj) : Env :=
  [("success", .vBool true), ("action", .vStr "create"),
   ("asset", .vDict
     [("id", .vInt a.id), ("asset_tag", getattrN a "asset_tag"),
      ("name", getattrN a "name"), ("serial", getattrN a "serial")])]

/-- The expanded asset projection returned by the get branch. -/
def assetGetEnv (a : AssetObj) : Env :=
  [("success", .vBool true), ("action", .vStr "get"),
   ("asset", .vDict
     [("id", .vInt a.id), ("asset_tag", getattrN a "asset_tag"),
      ("name", getattrN a "name"), ("serial", getattrN a "serial"),
      ("model", getattrN a "model"),
      ("status_label", getattrN a "status_label"),
      ("category", getattrN a "category"),
      ("manufacturer", getattrN a "manufacturer"),
      ("supplier", getattrN a "supplier"), ("notes", getattrN a "notes"),
      ("location", getattrN a "location"),
      ("assigned_to", getattrN a "assigned_to"),
      ("purchase_date", getattrN a "purchase_date"),
      ("purchase_cost", getattrN a "purchase_cost")])]

/-- Embeds the list branch's `model` column:
`getattr(asset, "model", \x7b\x7d).get("name")` when the `model` attribute
exists and is a dict, else `None`. -/
def modelNameOf (a : AssetObj) : PyVal :=
  match a.attrs.lookup "model" with
  | some (.vDict d) => (d.lookup "name").getD .vNone
  | _ => .vNone

/-- One row of the asset list projection. -/
def assetRow (a : AssetObj) : PyVal :=
  .vDict
    [("id", .vInt a.id), ("asset_tag", getattrN a "asset_tag"),
     ("name", getattrN a "name"), ("serial", getattrN a "serial"),
     ("model", modelNameOf a)]

/-- The envelope of the asset list branch. -/
def assetListEnv (xs : List AssetObj) : Env :=
  [("success", .vBool true), ("action", .vStr "list"),
   ("count", .vInt (Int.ofNat (xs.map assetRow).length)),
   ("assets", .vList (xs.map assetRow))]

/-- The trimmed projection returned by the update branch. -/
def assetUpdateEnv (a : AssetObj) : Env :=
  [("success", .vBool true), ("action", .vStr "update"),
   ("asset", .vDict
     [("id", .vInt a.id), ("asset_tag", getattrN a "asset_tag"),
      ("name", getattrN a "name")])]

/-- The confirmation envelope of the asset delete branch. -/
def assetDeleteEnv (asset_id : Int) : Env :=
  [("success", .vBool true), ("action", .vStr "delete"),
   ("asset_id", .vInt asset_id),
   ("message", .vStr "Asset deleted successfully")]

/-- Embedding of the `manage_assets` tool: the whole `try` body, with
every exit producing the envelope and the ordered collaborator-call
trace.  Argument defaults mirror the Python signature (`limit=50`,
`offset=0`, everything else `None`). -/
def manage_assets (w : World) (action : CrudAction)
    (asset_id : Option Int := none) (asset_tag : Option String := none)
    (serial : Option String := none) (asset_data : Option AssetData := none)
    (limit : Option Int := some 50) (offset : Option Int := some 0)
    (search : Option String := none) (sort : Option String := none)
    (order : Option SortOrder := none) : Env × List CollabCall :=
  match w.clientErr with
  | some e => (mapErrManageAssets e, [])
  | none =>
    match action with
    | .create =>
      match asset_data with
      | none => (failEnv "asset_data is required for create action", [])
      | some d =>
        if !intTruthy d.status_id || !intTruthy d.model_id then
          (failEnv "status_id and model_id are required to create an asset", [])
        else
          match w.assetsCreate d.dumpNonNone with
          | .error e => (mapErrManageAssets e, [.assetsCreate d.dumpNonNone])
          | .ok a => (assetCreateEnv a, [.assetsCreate d.dumpNonNone])
    | .get =>
      match getKeyOf asset_id asset_tag serial with
      | .byTag t =>
        match w.assetsGetByTag t with
        | .error e => (mapErrManageAssets e, [.assetsGetByTag t])
        | .ok a => (assetGetEnv a, [.assetsGetByTag t])
      | .bySerial s =>
        match w.assetsGetBySerial s with
        | .error e => (mapErrManageAssets e, [.assetsGetBySerial s])
        | .ok a => (assetGetEnv a, [.assetsGetBySerial s])
      | .byId i =>
        match w.assetsGet i with
        | .error e => (mapErrManageAssets e, [.assetsGet i])
        | .ok a => (assetGetEnv a, [.assetsGet i])
      | .missing =>
        (failEnv "One of asset_id, asset_tag, or serial is required for get action", [])
    | .list =>
      match w.assetsList (listParams limit offset search sort order) with
      | .error e =>
        (mapErrManageAssets e, [.assetsList (listParams limit offset search sort order)])
      | .ok xs =>
        (assetListEnv xs, [.assetsList (listParams limit offset search sort order)])
    | .update =>
      if !intTruthy asset_id then
        (failEnv "asset_id is required for update action", [])
      else
        match asset_data with
        | none => (failEnv "asset_data is required for update action", [])
        | some d =>
          match w.assetsPatch (asset_id.getD 0) d.dumpNonNone with
          | .error e =>
            (mapErrManageAssets e, [.assetsPatch (asset_id.getD 0) d.dumpNonNone])
          | .ok a =>
            (assetUpdateEnv a, [.assetsPatch (asset_id.getD 0) d.dumpNonNone])
    | .delete =>
      if !intTruthy asset_id then
        (failEnv "asset_id is required for delete action", [])
      else
        match w.assetsDelete (asset_id.getD 0) with
        | .error e => (mapErrManageAssets e, [.assetsDelete (asset_id.getD 0)])
        | .ok _ => (assetDeleteEnv (asset_id.getD 0), [.assetsDelete (asset_id.getD 0)])

/-- The `action` literal of `asset_operations`. -/
inductive OpAction where
  | checkout
  | checkin
  | audit
  | restore

/-- Checkout success envelope, including the contractual message naming the
destination type and id. -/
def checkoutEnv (asset_id : Int) (cd : CheckoutData) (ua : AssetObj) : Env :=
  [("success", .vBool true), ("action", .vStr "checkout"),
   ("asset_id", .vInt asset_id),
   ("message", .vStr ("Asset checked out to " ++ cd.checkout_to_type.toStr
     ++ " " ++ toString cd.assigned_to_id)),
   ("asset", .vDict
     [("id", .vInt ua.id), ("asset_tag", getattrN ua "asset_tag"),
      ("assigned_to", getattrN ua "assigned_to")])]

/-- Checkin success envelope. -/
def checkinEnv (asset_id : Int) (ua : AssetObj) : Env :=
  [("success", .vBool true), ("action", .vStr "checkin"),
   ("asset_id", .vInt asset_id),
   ("message", .vStr "Asset checked in successfully"),
   ("asset", .vDict
     [("id", .vInt ua.id), ("asset_tag", getattrN ua "asset_tag")])]

/-- Audit success envelope. -/
def auditEnv (asset_id : Int) (ua : AssetObj) : Env :=
  [("success", .vBool true), ("action", .vStr "audit"),
   ("asset_id", .vInt asset_id),
   ("message", .vStr "Asset audited successfully"),
   ("asset", .vDict
     [("id", .vInt ua.id), ("asset_tag", getattrN ua "asset_tag")])]

/-- Restore success envelope. -/
def restoreEnv (asset_id : Int) (ua : AssetObj) : Env :=
  [("success", .vBool true), ("action", .vStr "restore"),
   ("asset_id", .vInt asset_id),
   ("message", .vStr "Asset restored successfully"),
   ("asset", .vDict
     [("id", .vInt ua.id), ("asset_tag", getattrN ua "asset_tag")])]

/-- Embedding of the `asset_operations` tool.  Note the source resolves the
asset (`client.assets.get(asset_id)`) before dispatching on the action,
so even the `checkout_data` validation error is preceded by one
collaborator call. -/
def asset_operations (w : World) (action : OpAction) (asset_id : Int)
    (checkout_data : Option CheckoutData := none)
    (checkin_data : Option CheckinData := none)
    (audit_data : Option AuditData := none) : Env × List CollabCall :=
  match w.clientErr with
  | some e => (mapErrAssetScoped e, [])
  | none =>
    match w.assetsGet asset_id with
    | .error e => (mapErrAssetScoped e, [.assetsGet asset_id])
    | .ok a =>
      match action with
      | .checkout =>
        match checkout_data with
        | none =>
          (failEnv "checkout_data is required for checkout action", [.assetsGet asset_id])
        | some cd =>
          match w.assetCheckout a (checkoutKwargs cd) with
          | .error e =>
            (mapErrAssetScoped e,
             [.assetsGet asset_id, .assetCheckout a.id (checkoutKwargs cd)])
          | .ok ua =>
            (checkoutEnv asset_id cd ua,
             [.assetsGet asset_id, .assetCheckout a.id (checkoutKwargs cd)])
      | .checkin =>
        match w.assetCheckin a (checkinKwargs checkin_data) with
        | .error e =>
          (mapErrAssetScoped e,
           [.assetsGet asset_id, .assetCheckin a.id (checkinKwargs checkin_data)])
        | .ok ua =>
          (checkinEnv asset_id ua,
           [.assetsGet asset_id, .assetCheckin a.id (checkinKwargs checkin_data)])
      | .audit =>
        match w.assetAudit a (auditKwargs audit_data) with
        | .error e =>
          (mapErrAssetScoped e,
           [.assetsGet asset_id, .assetAudit a.id (auditKwargs audit_data)])
        | .ok ua =>
          (auditEnv asset_id ua,
           [.assetsGet asset_id, .assetAudit a.id (auditKwargs audit_data)])
      | .restore =>
        match w.assetRestore a with
        | .error e => (mapErrAssetScoped e, [.assetsGet asset_id, .assetRestore a.id])
        | .ok ua => (restoreEnv asset_id ua, [.assetsGet asset_id, .assetRestore a.id])

/-- The `action` literal of `asset_files`. -/
inductive FileAction where
  | upload
  | list
  | download
  | delete

/-- Upload success envelope (message counts the uploaded paths). -/
def uploadEnv (asset_id : Int) (paths : List String) (result : PyVal) : Env :=
  [("success", .vBool true), ("action", .vStr "upload"),
   ("asset_id", .vInt asset_id),
   ("message", .vStr ("Uploaded " ++ toString paths.length
     ++ " file(s) successfully")),
   ("result", result)]

/-- File list success envelope. -/
def fileListEnv (asset_id : Int) (result : PyVal) : Env :=
  [("success", .vBool true), ("action", .vStr "list"),
   ("asset_id", .vInt asset_id), ("files", result)]

/-- Download success envelope, carrying the resolved save path. -/
def downloadEnv (asset_id file_id : Int) (p : String) : Env :=
  [("success", .vBool true), ("action", .vStr "download"),
   ("asset_id", .vInt asset_id), ("file_id", .vInt file_id),
   ("saved_to", .vStr p),
   ("message", .vStr ("File downloaded to " ++ p))]

/-- File delete success envelope. -/
def fileDeleteEnv (asset_id file_id : Int) : Env :=
  [("success", .vBool true), ("action", .vStr "delete"),
   ("asset_id", .vInt asset_id), ("file_id", .vInt file_id),
   ("message", .vStr "File deleted successfully")]

/-- Embedding of the `asset_files` tool. -/
def asset_files (w : World) (action : FileAction) (asset_id : Int)
    (file_paths : Option (List String) := none) (notes : Option String := none)
    (file_id : Option Int := none) (save_path : Option String := none) :
    Env × List CollabCall :=
  match w.clientErr with
  | some e => (mapErrFiles e, [])
  | none =>
    match action with
    | .upload =>
      if !listTruthy file_paths then
        (failEnv "file_paths is required for upload action", [])
      else
        match w.uploadFiles asset_id (file_paths.getD []) notes with
        | .error e =>
          (mapErrFiles e, [.uploadFiles asset_id (file_paths.getD []) notes])
        | .ok r =>
          (uploadEnv asset_id (file_paths.getD []) r,
           [.uploadFiles asset_id (file_paths.getD []) notes])
    | .list =>
      match w.listFiles asset_id with
      | .error e => (mapErrFiles e, [.listFiles asset_id])
      | .ok r => (fileListEnv asset_id r, [.listFiles asset_id])
    | .download =>
      match file_id with
      | none => (failEnv "file_id is required for download action", [])
      | some fid =>
        if !strTruthy save_path then
          (failEnv "save_path is required for download action", [])
        else
          match w.downloadFile asset_id fid (save_path.getD "") with
          | .error e =>
            (mapErrFiles e, [.downloadFile asset_id fid (save_path.getD "")])
          | .ok p =>
            (downloadEnv asset_id fid p,
             [.downloadFile asset_id fid (save_path.getD "")])
    | .delete =>
      match file_id with
      | none => (failEnv "file_id is required for delete action", [])
      | some fid =>
        match w.deleteFile asset_id fid with
        | .error e => (mapErrFiles e, [.deleteFile asset_id fid])
        | .ok _ => (fileDeleteEnv asset_id fid, [.deleteFile asset_id fid])

/-- Embeds the comprehension
`assets = [client.assets.get(i) for i in asset_ids]`: resolves the ids in
order, raising (with the calls made so far) at the first failing lookup. -/
def resolveAssets (w : World) : List Int →
    Except SnipeErr (List AssetObj) × List CollabCall
  | [] => (.ok [], [])
  | i :: rest =>
    match w.assetsGet i with
    | .error e => (.error e, [.assetsGet i])
    | .ok a =>
      match resolveAssets w rest with
      | (.ok as, t) => (.ok (a :: as), .assetsGet i :: t)
      | (.error e, t) => (.error e, .assetsGet i :: t)

/-- Label-generation success envelope. -/
def labelsEnv (p : String) : Env :=
  [("success", .vBool true), ("action", .vStr "generate_labels"),
   ("saved_to", .vStr p),
   ("message", .vStr ("Labels generated and saved to " ++ p))]

/-- The single `client.assets.labels` call at the end of the label
branch, appended to the calls `t` made so far. -/
def labelsFinish (w : World) (sp : String) (arg : LabelsArg)
    (t : List CollabCall) : Env × List CollabCall :=
  match w.labels sp arg with
  | .error e => (mapErrAssetScoped e, t ++ [.labels sp arg])
  | .ok p => (labelsEnv p, t ++ [.labels sp arg])

/-- The id branch of `asset_labels`: resolve every id, then generate
labels from the resolved asset objects; a failing lookup aborts before
generation. -/
def labelsFromIds (w : World) (ids : List Int) (sp : String) :
    Env × List CollabCall :=
  match resolveAssets w ids with
  | (.error e, t) => (mapErrAssetScoped e, t)
  | (.ok as, t) => labelsFinish w sp (.assets as) t

/-- Embedding of the `asset_labels` tool.  The client is acquired before
the emptiness validation; with ids present (truthy) they are resolved and
the resolved objects are passed to `labels`, otherwise the raw tags are
passed. -/
def asset_labels (w : World) (asset_ids : Option (List Int) := none)
    (asset_tags : Option (List String) := none)
    (save_path : String := "/tmp/asset_labels.pdf") : Env × List CollabCall :=
  match w.clientErr with
  | some e => (mapErrAssetScoped e, [])
  | none =>
    if !listTruthy asset_ids && !listTruthy asset_tags then
      (failEnv "Either asset_ids or asset_tags must be provided", [])
    else if listTruthy asset_ids then
      labelsFromIds w (asset_ids.getD []) save_path
    else
      labelsFinish w save_path (.tags (asset_tags.getD [])) []

/-- Maintenance-creation success envelope. -/
def maintenanceEnv (asset_id : Int) (result : PyVal) : Env :=
  [("success", .vBool true), ("action", .vStr "create"),
   ("asset_id", .vInt asset_id),
   ("message", .vStr "Maintenance record created successfully"),
   ("maintenance", result)]

/-- Embedding of the `asset_maintenance` tool (its only action is create;
`maintenance_data` is a required argument). -/
def asset_maintenance (w : World) (asset_id : Int) (md : MaintenanceData) :
    Env × List CollabCall :=
  match w.clientErr with
  | some e => (mapErrAssetScoped e, [])
  | none =>
    match w.createMaintenance (maintenanceKwargs asset_id md) with
    | .error e =>
      (mapErrAssetScoped e, [.createMaintenance (maintenanceKwargs asset_id md)])
    | .ok r =>
      (maintenanceEnv asset_id r, [.createMaintenance (maintenanceKwargs asset_id md)])

/-- License lookup success envelope. -/
def licensesEnv (asset_id : Int) (result : PyVal) : Env :=
  [("success", .vBool true), ("asset_id", .vInt asset_id),
   ("licenses", result)]

/-- Embedding of the `asset_licenses` tool. -/
def asset_licenses (w : World) (asset_id : Int) : Env × List CollabCall :=
  match w.clientErr with
  | some e => (mapErrAssetScoped e, [])
  | none =>
    match w.getLicenses asset_id with
    | .error e => (mapErrAssetScoped e, [.getLicenses asset_id])
    | .ok r => (licensesEnv asset_id r, [.getLicenses asset_id])

/-- Consumable create success envelope. -/
def consumableCreateEnv (c : AssetObj) : Env :=
  [("success", .vBool true), ("action", .vStr "create"),
   ("consumable", .vDict
     [("id", .vInt c.id), ("name", getattrN c "name"),
      ("qty", getattrN c "qty")])]

/-- Consumable get success envelope (expanded projection). -/
def consumableGetEnv (c : AssetObj) : Env :=
  [("success", .vBool true), ("action", .vStr "get"),
   ("consumable", .vDict
     [("id", .vInt c.id), ("name", getattrN c "name"),
      ("qty", getattrN c "qty"), ("category", getattrN c "category"),
      ("company", getattrN c "company"), ("location", getattrN c "location"),
      ("manufacturer", getattrN c "manufacturer"),
      ("model_number", getattrN c "model_number"),
      ("item_no", getattrN c "item_no"),
      ("order_number", getattrN c "order_number"),
      ("purchase_date", getattrN c "purchase_date"),
      ("purchase_cost", getattrN c "purchase_cost"),
      ("min_amt", getattrN c "min_amt"),
      ("remaining", getattrN c "remaining")])]

/-- One row of the consumable list projection. -/
def consumableRow (c : AssetObj) : PyVal :=
  .vDict
    [("id", .vInt c.id), ("name", getattrN c "name"),
     ("qty", getattrN c "qty"), ("remaining", getattrN c "remaining")]

/-- The envelope of the consumable list branch. -/
def consumableListEnv (xs : List AssetObj) : Env :=
  [("success", .vBool true), ("action", .vStr "list"),
   ("count", .vInt (Int.ofNat (xs.map consumableRow).length)),
   ("consumables", .vList (xs.map consumableRow))]

/-- Consumable update success envelope. -/
def consumableUpdateEnv (c : AssetObj) : Env :=
  [("success", .vBool true), ("action", .vStr "update"),
   ("consumable", .vDict
     [("id", .vInt c.id), ("name", getattrN c "name"),
      ("qty", getattrN c "qty")])]

/-- Consumable delete success envelope. -/
def consumableDeleteEnv (consumable_id : Int) : Env :=
  [("success", .vBool true), ("action", .vStr "delete"),
   ("consumable_id", .vInt consumable_id),
   ("message", .vStr "Consumable deleted successfully")]

/-- Embedding of the `manage_consumables` tool.  Create validation checks
`name` and `category_id` by truthiness but `qty` by `is None`. -/
def manage_consumables (w : World) (action : CrudAction)
    (consumable_id : Option Int := none)
    (consumable_data : Option ConsumableData := none)
    (limit : Option Int := some 50) (offset : Option Int := some 0)
    (search : Option String := none) (sort : Option String := none)
    (order : Option SortOrder := none) : Env × List CollabCall :=
  match w.clientErr with
  | some e => (mapErrConsumables e, [])
  | none =>
    match action with
    | .create =>
      match consumable_data with
      | none => (failEnv "consumable_data is required for create action", [])
      | some d =>
        if !strTruthy d.name || d.qty.isNone || !intTruthy d.category_id then
          (failEnv "name, qty, and category_id are required to create a consumable", [])
        else
          match w.consumablesCreate d.dumpNonNone with
          | .error e => (mapErrConsumables e, [.consumablesCreate d.dumpNonNone])
          | .ok c => (consumableCreateEnv c, [.consumablesCreate d.dumpNonNone])
    | .get =>
      if !intTruthy consumable_id then
        (failEnv "consumable_id is required for get action", [])
      else
        match w.consumablesGet (consumable_id.getD 0) with
        | .error e => (mapErrConsumables e, [.consumablesGet (consumable_id.getD 0)])
        | .ok c => (consumableGetEnv c, [.consumablesGet (consumable_id.getD 0)])
    | .list =>
      match w.consumablesList (listParams limit offset search sort order) with
      | .error e =>
        (mapErrConsumables e,
         [.consumablesList (listParams limit offset search sort order)])
      | .ok xs =>
        (consumableListEnv xs,
         [.consumablesList (listParams limit offset search sort order)])
    | .update =>
      if !intTruthy consumable_id then
        (failEnv "consumable_id is required for update action", [])
      else
        match consumable_data with
        | none => (failEnv "consumable_data is required for update action", [])
        | some d =>
          match w.consumablesPatch (consumable_id.getD 0) d.dumpNonNone with
          | .error e =>
            (mapErrConsumables e,
             [.consumablesPatch (consumable_id.getD 0) d.dumpNonNone])
          | .ok c =>
            (consumableUpdateEnv c,
             [.consumablesPatch (consumable_id.getD 0) d.dumpNonNone])
    | .delete =>
      if !intTruthy consumable_id then
        (failEnv "consumable_id is required for delete action", [])
      else
        match w.consumablesDelete (consumable_id.getD 0) with
        | .error e =>
          (mapErrConsumables e, [.consumablesDelete (consumable_id.getD 0)])
        | .ok _ =>
          (consumableDeleteEnv (consumable_id.getD 0),
           [.consumablesDelete (consumable_id.getD 0)])

/-! Envelope well-formedness: every dispatcher exit is either the exact
two-key failure dict or a success dict with no `error` key. -/

/-- Well-formedness of a returned envelope: either it is exactly
`failEnv s` for some message `s` (so `success = False`, an `error` string,
and nothing else), or its `success` value is `True` and it has no
`error` key. -/
def EnvWF (env : Env) : Prop :=
  (∃ s, env = failEnv s) ∨
  (env.lookup "success" = some (.vBool true) ∧ env.lookup "error" = none)

theorem envWF_fail (s : String) : EnvWF (failEnv s) :=
  Or.inl ⟨s, rfl⟩

theorem envWF_mapA (e : SnipeErr) : EnvWF (mapErrManageAssets e) := by
  cases e <;> exact envWF_fail _

theorem envWF_mapC (e : SnipeErr) : EnvWF (mapErrConsumables e) := by
  cases e <;> exact envWF_fail _

theorem envWF_mapS (e : SnipeErr) : EnvWF (mapErrAssetScoped e) := by
  cases e <;> exact envWF_fail _

theorem envWF_mapF (e : SnipeErr) : EnvWF (mapErrFiles e) := by
  cases e <;> exact envWF_fail _

theorem envWF_labelsFinish (w : World) (sp : String) (arg : LabelsArg)
    (t : List CollabCall) : EnvWF (labelsFinish w sp arg t).1 := by
  unfold labelsFinish
  split
  · exact envWF_mapS _
  · right
    constructor <;> simp [labelsEnv, List.lookup]

theorem envWF_labelsFromIds (w : World) (ids : List Int) (sp : String) :
    EnvWF (labelsFromIds w ids sp).1 := by
  unfold labelsFromIds
  split
  · exact envWF_mapS _
  · exact envWF_labelsFinish _ _ _ _

theorem manage_assets_wf (w : World) (action : CrudAction) (asset_id : Option Int)
    (asset_tag serial : Option String) (asset_data : Option AssetData)
    (limit offset : Option Int) (search sort : Option String)
    (order : Option SortOrder) :
    EnvWF (manage_assets w action asset_id asset_tag serial asset_data
      limit offset search sort order).1 := by
  unfold manage_assets
  repeat' split
  all_goals
    first
      | exact envWF_mapA _
      | exact envWF_fail _
      | (right; constructor <;>
          simp [assetCreateEnv, assetGetEnv, assetListEnv, assetUpdateEnv,
            assetDeleteEnv, List.lookup])

theorem asset_operations_wf (w : World) (action : OpAction) (asset_id : Int)
    (checkout_data : Option CheckoutData) (checkin_data : Option CheckinData)
    (audit_data : Option AuditData) :
    EnvWF (asset_operations w action asset_id checkout_data checkin_data
      audit_data).1 := by
  unfold asset_operations
  repeat' split
  all_goals
    first
      | exact envWF_mapS _
      | exact envWF_fail _
      | (right; constructor <;>
          simp [checkoutEnv, checkinEnv, auditEnv, restoreEnv, List.lookup])

theorem asset_files_wf (w : World) (action : FileAction) (asset_id : Int)
    (file_paths : Option (List String)) (notes : Option String)
    (file_id : Option Int) (save_path : Option String) :
    EnvWF (asset_files w action asset_id file_paths notes file_id save_path).1 := by
  unfold asset_files
  repeat' split
  all_goals
    first
      | exact envWF_mapF _
      | exact envWF_fail _
      | (right; constructor <;>
          simp [uploadEnv, fileListEnv, downloadEnv, fileDeleteEnv, List.lookup])

theorem asset_labels_wf (w : World) (asset_ids : Option (List Int))
    (asset_tags : Option (List String)) (save_path : String) :
    EnvWF (asset_labels w asset_ids asset_tags save_path).1 := by
  unfold asset_labels
  repeat' split
  all_goals
    first
      | exact envWF_mapS _
      | exact envWF_fail _
      | exact envWF_labelsFromIds _ _ _
      | exact envWF_labelsFinish _ _ _ _

theorem asset_maintenance_wf (w : World) (asset_id : Int) (md : MaintenanceData) :
    EnvWF (asset_maintenance w asset_id md).1 := by
  unfold asset_maintenance
  repeat' split
  all_goals
    first
      | exact envWF_mapS _
      | (right; constructor <;> simp [maintenanceEnv, List.lookup])

theorem asset_licenses_wf (w : World) (asset_id : Int) :
    EnvWF (asset_licenses w asset_id).1 := by
  unfold asset_licenses
  repeat' split
  all_goals
    first
      | exact envWF_mapS _
      | (right; constructor <;> simp [licensesEnv, List.lookup])

theorem manage_consumables_wf (w : World) (action : CrudAction)
    (consumable_id : Option Int) (consumable_data : Option ConsumableData)
    (limit offset : Option Int) (search sort : Option String)
    (order : Option SortOrder) :
    EnvWF (manage_consumables w action consumable_id consumable_data
      limit offset search sort order).1 := by
  unfold manage_consumables
  repeat' split
  all_goals
    first
      | exact envWF_mapC _
      | exact envWF_fail _
      | (right; constructor <;>
          simp [consumableCreateEnv, consumableGetEnv, consumableListEnv,
            consumableUpdateEnv, consumableDeleteEnv, List.lookup])

theorem EnvWF.key_shape {env : Env} (h : EnvWF env) :
    (env.lookup "success" = some (.vBool true) → env.lookup "error" = none) ∧
    (env.lookup "success" = some (.vBool false) → ∃ s, env = failEnv s) := by
  rcases h with ⟨s, rfl⟩ | ⟨h1, h2⟩
  · refine ⟨fun h => ?_, fun _ => ⟨s, rfl⟩⟩
    simp [failEnv, List.lookup] at h
  · refine ⟨fun _ => h2, fun h => ?_⟩
    rw [h1] at h
    simp at h

/-- C1: every invocation of each of the seven tools, whatever the inputs
and whatever faults the collaborator raises (client construction, any of
the four snipeit exception classes, or any other exception), returns a
single well-formed envelope — on failure exactly
`{"success": False, "error": <string>}` — and never propagates an
exception (totality of the embedded dispatchers).  The final conjuncts
show that each error mapper renders every fault class as such a failure
envelope and that a fault raised by `get_snipeit_client` is contained
the same way in every tool. -/
theorem c1_fault_containment :
    (∀ w action asset_id asset_tag serial asset_data limit offset search sort order,
      EnvWF (manage_assets w action asset_id asset_tag serial asset_data
        limit offset search sort order).1) ∧
    (∀ w action asset_id cod cid aud,
      EnvWF (asset_operations w action asset_id cod cid aud).1) ∧
    (∀ w action asset_id fps notes fid sp,
      EnvWF (asset_files w action asset_id fps notes fid sp).1) ∧
    (∀ w ids tags sp, EnvWF (asset_labels w ids tags sp).1) ∧
    (∀ w aid md, EnvWF (asset_maintenance w aid md).1) ∧
    (∀ w aid, EnvWF (asset_licenses w aid).1) ∧
    (∀ w action cid cd limit offset search sort order,
      EnvWF (manage_consumables w action cid cd limit offset search sort order).1) ∧
    (∀ e, ∃ s, mapErrManageAssets e = failEnv s) ∧
    (∀ e, ∃ s, mapErrConsumables e = failEnv s) ∧
    (∀ e, ∃ s, mapErrAssetScoped e = failEnv s) ∧
    (∀ e, ∃ s, mapErrFiles e = failEnv s) ∧
    (∀ (w : World) e action asset_id asset_tag serial asset_data limit offset search sort order,
      (manage_assets { w with clientErr := some e } action asset_id asset_tag
        serial asset_data limit offset search sort order).1 = mapErrManageAssets e) ∧
    (∀ (w : World) e action asset_id cod cid aud,
      (asset_operations { w with clientErr := some e } action asset_id cod
        cid aud).1 = mapErrAssetScoped e) ∧
    (∀ (w : World) e action asset_id fps notes fid sp,
      (asset_files { w with clientErr := some e } action asset_id fps notes
        fid sp).1 = mapErrFiles e) ∧
    (∀ (w : World) e ids tags sp,
      (asset_labels { w with clientErr := some e } ids tags sp).1 = mapErrAssetScoped e) ∧
    (∀ (w : World) e aid md,
      (asset_maintenance { w with clientErr := some e } aid md).1 = mapErrAssetScoped e) ∧
    (∀ (w : World) e aid,
      (asset_licenses { w with clientErr := some e } aid).1 = mapErrAssetScoped e) ∧
    (∀ (w : World) e action cid cd limit offset search sort order,
      (manage_consumables { w with clientErr := some e } action cid cd
        limit offset search sort order).1 = mapErrConsumables e) := by
  refine ⟨manage_assets_wf, asset_operations_wf, asset_files_wf, asset_labels_wf,
    asset_maintenance_wf, asset_licenses_wf, manage_consumables_wf,
    ?_, ?_, ?_, ?_, ?_, ?_, ?_, ?_, ?_, ?_, ?_⟩
  · intro e; cases e <;> exact ⟨_, rfl⟩
  · intro e; cases e <;> exact ⟨_, rfl⟩
  · intro e; cases e <;> exact ⟨_, rfl⟩
  · intro e; cases e <;> exact ⟨_, rfl⟩
  all_goals intros; rfl

/-- C6: for every tool and every input, the returned envelope satisfies:
if `success` is `True` the dict has no `error` key, and if `success` is
`False` the dict is exactly `{"success": False, "error": <string>}` —
no entity data.  (Each embedded dispatcher is a function returning a
single envelope, so exactly one envelope is produced per invocation.) -/
theorem c6_envelope_invariant :
    (∀ w action asset_id asset_tag serial asset_data limit offset search sort order,
      ((manage_assets w action asset_id asset_tag serial asset_data
          limit offset search sort order).1.lookup "success" = some (.vBool true) →
        (manage_assets w action asset_id asset_tag serial asset_data
          limit offset search sort order).1.lookup "error" = none) ∧
      ((manage_assets w action asset_id asset_tag serial asset_data
          limit offset search sort order).1.lookup "success" = some (.vBool false) →
        ∃ s, (manage_assets w action asset_id asset_tag serial asset_data
          limit offset search sort order).1 = failEnv s)) ∧
    (∀ w action asset_id cod cid aud,
      ((asset_operations w action asset_id cod cid aud).1.lookup "success"
          = some (.vBool true) →
        (asset_operations w action asset_id cod cid aud).1.lookup "error" = none) ∧
      ((asset_operations w action asset_id cod cid aud).1.lookup "success"
          = some (.vBool false) →
        ∃ s, (asset_operations w action asset_id cod cid aud).1 = failEnv s)) ∧
    (∀ w action asset_id fps notes fid sp,
      ((asset_files w action asset_id fps notes fid sp).1.lookup "success"
          = some (.vBool true) →
        (asset_files w action asset_id fps notes fid sp).1.lookup "error" = none) ∧
      ((asset_files w action asset_id fps notes fid sp).1.lookup "success"
          = some (.vBool false) →
        ∃ s, (asset_files w action asset_id fps notes fid sp).1 = failEnv s)) ∧
    (∀ w ids tags sp,
      ((asset_labels w ids tags sp).1.lookup "success" = some (.vBool true) →
        (asset_labels w ids tags sp).1.lookup "error" = none) ∧
      ((asset_labels w ids tags sp).1.lookup "success" = some (.vBool false) →
        ∃ s, (asset_labels w ids tags sp).1 = failEnv s)) ∧
    (∀ w aid md,
      ((asset_maintenance w aid md).1.lookup "success" = some (.vBool true) →
        (asset_maintenance w aid md).1.lookup "error" = none) ∧
      ((asset_maintenance w aid md).1.lookup "success" = some (.vBool false) →
        ∃ s, (asset_maintenance w aid md).1 = failEnv s)) ∧
    (∀ w aid,
      ((asset_licenses w aid).1.lookup "success" = some (.vBool true) →
        (asset_licenses w aid).1.lookup "error" = none) ∧
      ((asset_licenses w aid).1.lookup "success" = some (.vBool false) →
        ∃ s, (asset_licenses w aid).1 = failEnv s)) ∧
    (∀ w action cid cd limit offset search sort order,
      ((manage_consumables w action cid cd limit offset search sort order).1.lookup
          "success" = some (.vBool true) →
        (manage_consumables w action cid cd limit offset search sort
          order).1.lookup "error" = none) ∧
      ((manage_consumables w action cid cd limit offset search sort
          order).1.lookup "success" = some (.vBool false) →
        ∃ s, (manage_consumables w action cid cd limit offset search sort
          order).1 = failEnv s)) := by
  refine ⟨?_, ?_, ?_, ?_, ?_, ?_, ?_⟩ <;> intros <;> exact EnvWF.key_shape (by
    first
      | apply manage_assets_wf
      | apply asset_operations_wf
      | apply asset_files_wf
      | apply asset_labels_wf
      | apply asset_maintenance_wf
      | apply asset_licenses_wf
      | apply manage_consumables_wf)

/-! Key lookup over the payload dicts built from the pydantic models. -/

theorem lookup_append (k : String) (l1 l2 : Env) :
    (l1 ++ l2).lookup k = (l1.lookup k).or (l2.lookup k) := by
  induction l1 with
  | nil => simp [List.lookup]
  | cons p rest ih =>
    by_cases h : k == p.1 <;> simp [List.lookup, h, ih]

theorem lookup_optEntry (k k' : String) (o : Option PyVal) :
    (optEntry k' o).lookup k = if k = k' then o else none := by
  by_cases h : k = k'
  · subst h; cases o <;> simp [optEntry, List.lookup]
  · have hb : (k == k') = false := beq_eq_false_iff_ne.mpr h
    cases o <;> simp [optEntry, List.lookup, hb, h]

/-- C3: the payload forwarded by the create/update branches of
`manage_assets` and `manage_consumables` is `dumpNonNone` of the input
model — for every field, the forwarded dict holds the key exactly when
the caller supplied the field, with the supplied value (so `some 0` and
`some ""` are forwarded while `none` never appears) — and the final
conjuncts show the dispatchers forward exactly this dict, a pure
function of the payload, so equal payloads forward equal fields on
every invocation. -/
theorem c3_sparse_update :
    (∀ d : AssetData,
      d.dumpNonNone.lookup "status_id" = d.status_id.map .vInt ∧
      d.dumpNonNone.lookup "model_id" = d.model_id.map .vInt ∧
      d.dumpNonNone.lookup "asset_tag" = d.asset_tag.map .vStr ∧
      d.dumpNonNone.lookup "name" = d.name.map .vStr ∧
      d.dumpNonNone.lookup "serial" = d.serial.map .vStr ∧
      d.dumpNonNone.lookup "purchase_date" = d.purchase_date.map .vStr ∧
      d.dumpNonNone.lookup "purchase_cost" = d.purchase_cost.map .vInt ∧
      d.dumpNonNone.lookup "order_number" = d.order_number.map .vStr ∧
      d.dumpNonNone.lookup "notes" = d.notes.map .vStr ∧
      d.dumpNonNone.lookup "warranty_months" = d.warranty_months.map .vInt ∧
      d.dumpNonNone.lookup "location_id" = d.location_id.map .vInt ∧
      d.dumpNonNone.lookup "rtd_location_id" = d.rtd_location_id.map .vInt ∧
      d.dumpNonNone.lookup "supplier_id" = d.supplier_id.map .vInt ∧
      d.dumpNonNone.lookup "company_id" = d.company_id.map .vInt ∧
      d.dumpNonNone.lookup "requestable" = d.requestable.map .vBool) ∧
    (∀ d : ConsumableData,
      d.dumpNonNone.lookup "name" = d.name.map .vStr ∧
      d.dumpNonNone.lookup "qty" = d.qty.map .vInt ∧
      d.dumpNonNone.lookup "category_id" = d.category_id.map .vInt ∧
      d.dumpNonNone.lookup "company_id" = d.company_id.map .vInt ∧
      d.dumpNonNone.lookup "location_id" = d.location_id.map .vInt ∧
      d.dumpNonNone.lookup "manufacturer_id" = d.manufacturer_id.map .vInt ∧
      d.dumpNonNone.lookup "model_number" = d.model_number.map .vStr ∧
      d.dumpNonNone.lookup "item_no" = d.item_no.map .vStr ∧
      d.dumpNonNone.lookup "order_number" = d.order_number.map .vStr ∧
      d.dumpNonNone.lookup "purchase_date" = d.purchase_date.map .vStr ∧
      d.dumpNonNone.lookup "purchase_cost" = d.purchase_cost.map .vInt ∧
      d.dumpNonNone.lookup "min_amt" = d.min_amt.map .vInt ∧
      d.dumpNonNone.lookup "notes" = d.notes.map .vStr) ∧
    (∀ (w : World) (i : Int) (d : AssetData) lim off se so ord, i ≠ 0 →
      (manage_assets { w with clientErr := none } .update (some i) none none
        (some d) lim off se so ord).2 = [.assetsPatch i d.dumpNonNone]) ∧
    (∀ (w : World) (d : AssetData) lim off se so ord,
      intTruthy d.status_id = true → intTruthy d.model_id = true →
      (manage_assets { w with clientErr := none } .create none none none
        (some d) lim off se so ord).2 = [.assetsCreate d.dumpNonNone]) ∧
    (∀ (w : World) (i : Int) (d : ConsumableData) lim off se so ord, i ≠ 0 →
      (manage_consumables { w with clientErr := none } .update (some i)
        (some d) lim off se so ord).2 = [.consumablesPatch i d.dumpNonNone]) ∧
    (∀ (w : World) (d : ConsumableData) lim off se so ord,
      strTruthy d.name = true → d.qty.isSome = true → intTruthy d.category_id = true →
      (manage_consumables { w with clientErr := none } .create none
        (some d) lim off se so ord).2 = [.consumablesCreate d.dumpNonNone]) := by
  refine ⟨?_, ?_, ?_, ?_, ?_, ?_⟩
  · intro d
    refine ⟨?_, ?_, ?_, ?_, ?_, ?_, ?_, ?_, ?_, ?_, ?_, ?_, ?_, ?_, ?_⟩ <;>
      simp [AssetData.dumpNonNone, lookup_append, lookup_optEntry]
  · intro d
    refine ⟨?_, ?_, ?_, ?_, ?_, ?_, ?_, ?_, ?_, ?_, ?_, ?_, ?_⟩ <;>
      simp [ConsumableData.dumpNonNone, lookup_append, lookup_optEntry]
  · intro w i d lim off se so ord hi
    simp only [manage_assets, intTruthy]
    rw [if_neg (by simp [hi])]
    split <;> simp
  · intro w d lim off se so ord h1 h2
    simp only [manage_assets]
    rw [if_neg (by simp [h1, h2])]
    split <;> rfl
  · intro w i d lim off se so ord hi
    simp only [manage_consumables, intTruthy]
    rw [if_neg (by simp [hi])]
    split <;> simp
  · intro w d lim off se so ord h1 h2 h3
    have hq : d.qty.isNone = false := by
      cases hh : d.qty
      · rw [hh] at h2; simp at h2
      · rfl
    simp only [manage_consumables]
    rw [if_neg (by simp [h1, hq, h3])]
    split <;> rfl

/-- Witness for C3 at a concrete input: asset id 5, a payload supplying
`location_id = 0` and `notes = ""` (and the two required create keys),
is forwarded as exactly its non-`None` dump. -/
theorem c3_witness :
    ((5 : Int) ≠ 0) ∧
    (manage_assets { ({} : World) with clientErr := none } .update (some 5) none none
      (some { location_id := some 0, notes := some "" }) (some 50) (some 0)
      none none none).2
      = [.assetsPatch 5
          (AssetData.dumpNonNone { location_id := some 0, notes := some "" })] :=
  ⟨by decide,
    c3_sparse_update.2.2.1 ({} : World) 5 { location_id := some 0, notes := some "" }
      (some 50) (some 0) none none none (by decide)⟩

/-- C9: in the create branch of `manage_assets`, a supplied `status_id`
or `model_id` of `0` is falsy, so it fails the
`not asset_data.status_id or not asset_data.model_id` check exactly as an
absent field does: the envelope is the required-fields error and no
collaborator call is made. -/
theorem c9_create_zero_is_absent :
    ∀ (w : World) (d : AssetData) lim off se so ord,
      d.status_id = some 0 ∨ d.model_id = some 0 →
      (manage_assets { w with clientErr := none } .create none none none
          (some d) lim off se so ord)
        = (failEnv "status_id and model_id are required to create an asset", []) := by
  intro w d lim off se so ord h
  have : (!intTruthy d.status_id || !intTruthy d.model_id) = true := by
    rcases h with h | h <;> simp [h, intTruthy]
  simp [manage_assets, this]

/-- Witness for C9: a payload with `status_id = 0` and `model_id = 7`. -/
theorem c9_witness :
    (({ status_id := some 0, model_id := some 7 } : AssetData).status_id = some 0 ∨
      ({ status_id := some 0, model_id := some 7 } : AssetData).model_id = some 0) ∧
    (manage_assets { ({} : World) with clientErr := none } .create none none none
        (some { status_id := some 0, model_id := some 7 }) (some 50) (some 0)
        none none none)
      = (failEnv "status_id and model_id are required to create an asset", []) :=
  ⟨Or.inl rfl,
    c9_create_zero_is_absent ({} : World) { status_id := some 0, model_id := some 7 }
      (some 50) (some 0) none none none (Or.inl rfl)⟩

/-- Is a collaborator call a lookup by tag? -/
def isTagLookup : CollabCall → Bool
  | .assetsGetByTag _ => true
  | _ => false

/-- C5 counterexample: with `asset_tag` supplied as the empty string and
`asset_id = 7`, the get branch uses the id lookup — the trace is
`[assets.get 7]` and contains no `get_by_tag` call — because the source
tests `if asset_tag:` by truthiness, not by presence.  This falsifies
"whenever asset_tag is supplied the tag lookup is used". -/
theorem c5_counterexample :
    (manage_assets ({} : World) .get (some 7) (some "") none none (some 50)
      (some 0) none none none).2 = [.assetsGet 7] ∧
    ((manage_assets ({} : World) .get (some 7) (some "") none none (some 50)
      (some 0) none none none).2.all fun c => !isTagLookup c) = true :=
  ⟨rfl, rfl⟩

/-- C5 amended: lookup priority applies to truthy identifiers — a
non-empty `asset_tag` always wins, else a non-empty `serial`, else a
non-zero `asset_id`; a supplied-but-empty tag or serial (or a zero id)
counts as absent, and when all three are falsy the get branch returns
the fixed error with no collaborator call. -/
theorem c5_get_priority :
    (∀ (w : World) (t : String) asset_id serial lim off se so ord, t ≠ "" →
      (manage_assets { w with clientErr := none } .get asset_id (some t)
        serial none lim off se so ord).2 = [.assetsGetByTag t]) ∧
    (∀ (w : World) (s : String) asset_id tag lim off se so ord,
      strTruthy tag = false → s ≠ "" →
      (manage_assets { w with clientErr := none } .get asset_id tag (some s)
        none lim off se so ord).2 = [.assetsGetBySerial s]) ∧
    (∀ (w : World) (i : Int) tag serial lim off se so ord,
      strTruthy tag = false → strTruthy serial = false → i ≠ 0 →
      (manage_assets { w with clientErr := none } .get (some i) tag serial
        none lim off se so ord).2 = [.assetsGet i]) ∧
    (∀ (w : World) asset_id tag serial lim off se so ord,
      strTruthy tag = false → strTruthy serial = false → intTruthy asset_id = false →
      (manage_assets { w with clientErr := none } .get asset_id tag serial
        none lim off se so ord)
        = (failEnv "One of asset_id, asset_tag, or serial is required for get action",
           [])) := by
  refine ⟨?_, ?_, ?_, ?_⟩
  · intro w t asset_id serial lim off se so ord ht
    have h1 : strTruthy (some t) = true := by simp [strTruthy, ht]
    simp only [manage_assets, getKeyOf, h1, if_true]
    split <;> rfl
  · intro w s asset_id tag lim off se so ord htag hs
    have h1 : strTruthy (some s) = true := by simp [strTruthy, hs]
    simp only [manage_assets, getKeyOf, htag, h1, if_true, if_false,
      Bool.false_eq_true]
    split <;> rfl
  · intro w i tag serial lim off se so ord htag hser hi
    have h1 : intTruthy (some i) = true := by simp [intTruthy, hi]
    simp only [manage_assets, getKeyOf, htag, hser, h1, if_true, if_false,
      Bool.false_eq_true]
    split <;> rfl
  · intro w asset_id tag serial lim off se so ord htag hser hid
    simp only [manage_assets, getKeyOf, htag, hser, hid, if_false,
      Bool.false_eq_true]

/-- Witness for C5 at concrete inputs: tag "T1" beats a supplied serial
and id. -/
theorem c5_witness :
    ("T1" ≠ "") ∧
    (manage_assets { ({} : World) with clientErr := none } .get (some 7)
      (some "T1") (some "SER") none (some 50) (some 0) none none none).2
      = [.assetsGetByTag "T1"] :=
  ⟨by decide,
    c5_get_priority.1 ({} : World) "T1" (some 7) (some "SER") (some 50) (some 0)
      none none none (by decide)⟩

/-- C2 counterexample: `asset_operations` resolves the asset before
validating `checkout_data`, so omitting `checkout_data` returns the
validation error only after one collaborator call (`assets.get 5`) —
the claim's "zero collaborator calls" fails for checkout. -/
theorem c2_counterexample :
    (asset_operations ({} : World) .checkout 5 none none none).1
      = failEnv "checkout_data is required for checkout action" ∧
    (asset_operations ({} : World) .checkout 5 none none none).2
      = [.assetsGet 5] ∧
    (asset_operations ({} : World) .checkout 5 none none none).2.length ≠ 0 :=
  ⟨rfl, rfl, by decide⟩

/-- C2 amended: every required-field validation of every tool —
`manage_assets` create (`asset_data`, `status_id`/`model_id`), update
(`asset_id`, `asset_data`) and delete (`asset_id`); `asset_files` upload
(`file_paths`), download (`file_id`, `save_path`) and delete
(`file_id`); `manage_consumables` create (`consumable_data`,
`name`/`qty`/`category_id`), get/update/delete (`consumable_id`) and
update (`consumable_data`) — returns `success=false` with an error
naming the field and zero collaborator calls; the sole exception is
`asset_operations` checkout, where the asset lookup (one `assets.get`
call) precedes the `checkout_data` check, so that error comes after
exactly that one call and before any transition call. -/
theorem c2_required_field_validation :
    (∀ (w : World) lim off se so ord,
      (manage_assets { w with clientErr := none } .create none none none none
        lim off se so ord)
        = (failEnv "asset_data is required for create action", [])) ∧
    (∀ (w : World) (d : AssetData) lim off se so ord,
      (!intTruthy d.status_id || !intTruthy d.model_id) = true →
      (manage_assets { w with clientErr := none } .create none none none
        (some d) lim off se so ord)
        = (failEnv "status_id and model_id are required to create an asset", [])) ∧
    (∀ (w : World) asset_id dat lim off se so ord, intTruthy asset_id = false →
      (manage_assets { w with clientErr := none } .update asset_id none none dat
        lim off se so ord)
        = (failEnv "asset_id is required for update action", [])) ∧
    (∀ (w : World) (i : Int) lim off se so ord, i ≠ 0 →
      (manage_assets { w with clientErr := none } .update (some i) none none none
        lim off se so ord)
        = (failEnv "asset_data is required for update action", [])) ∧
    (∀ (w : World) asset_id lim off se so ord, intTruthy asset_id = false →
      (manage_assets { w with clientErr := none } .delete asset_id none none none
        lim off se so ord)
        = (failEnv "asset_id is required for delete action", [])) ∧
    (∀ (w : World) asset_id fps notes fid sp, listTruthy fps = false →
      (asset_files { w with clientErr := none } .upload asset_id fps notes fid sp)
        = (failEnv "file_paths is required for upload action", [])) ∧
    (∀ (w : World) asset_id fps notes sp,
      (asset_files { w with clientErr := none } .download asset_id fps notes
        none sp)
        = (failEnv "file_id is required for download action", [])) ∧
    (∀ (w : World) asset_id fps notes fid sp, strTruthy sp = false →
      (asset_files { w with clientErr := none } .download asset_id fps notes
        (some fid) sp)
        = (failEnv "save_path is required for download action", [])) ∧
    (∀ (w : World) asset_id fps notes sp,
      (asset_files { w with clientErr := none } .delete asset_id fps notes
        none sp)
        = (failEnv "file_id is required for delete action", [])) ∧
    (∀ (w : World) cid lim off se so ord,
      (manage_consumables { w with clientErr := none } .create cid none
        lim off se so ord)
        = (failEnv "consumable_data is required for create action", [])) ∧
    (∀ (w : World) (d : ConsumableData) cid lim off se so ord,
      (!strTruthy d.name || d.qty.isNone || !intTruthy d.category_id) = true →
      (manage_consumables { w with clientErr := none } .create cid (some d)
        lim off se so ord)
        = (failEnv "name, qty, and category_id are required to create a consumable",
           [])) ∧
    (∀ (w : World) cid lim off se so ord, intTruthy cid = false →
      (manage_consumables { w with clientErr := none } .get cid none
        lim off se so ord)
        = (failEnv "consumable_id is required for get action", [])) ∧
    (∀ (w : World) cid dat lim off se so ord, intTruthy cid = false →
      (manage_consumables { w with clientErr := none } .update cid dat
        lim off se so ord)
        = (failEnv "consumable_id is required for update action", [])) ∧
    (∀ (w : World) (i : Int) lim off se so ord, i ≠ 0 →
      (manage_consumables { w with clientErr := none } .update (some i) none
        lim off se so ord)
        = (failEnv "consumable_data is required for update action", [])) ∧
    (∀ (w : World) cid lim off se so ord, intTruthy cid = false →
      (manage_consumables { w with clientErr := none } .delete cid none
        lim off se so ord)
        = (failEnv "consumable_id is required for delete action", [])) ∧
    (∀ (w : World) (i : Int) (a : AssetObj),
      w.clientErr = none → w.assetsGet i = .ok a →
      (asset_operations w .checkout i none none none)
        = (failEnv "checkout_data is required for checkout action",
           [.assetsGet i])) := by
  refine ⟨?_, ?_, ?_, ?_, ?_, ?_, ?_, ?_, ?_, ?_, ?_, ?_, ?_, ?_, ?_, ?_⟩
  · intros; rfl
  · intro w d lim off se so ord h
    simp [manage_assets, h]
  · intro w asset_id dat lim off se so ord h
    simp [manage_assets, h]
  · intro w i lim off se so ord hi
    have h1 : intTruthy (some i) = true := by simp [intTruthy, hi]
    simp [manage_assets, h1]
  · intro w asset_id lim off se so ord h
    simp [manage_assets, h]
  · intro w asset_id fps notes fid sp h
    simp [asset_files, h]
  · intros; rfl
  · intro w asset_id fps notes fid sp h
    simp [asset_files, h]
  · intros; rfl
  · intros; rfl
  · intro w d cid lim off se so ord h
    simp [manage_consumables, h]
  · intro w cid lim off se so ord h
    simp [manage_consumables, h]
  · intro w cid dat lim off se so ord h
    simp [manage_consumables, h]
  · intro w i lim off se so ord hi
    have h1 : intTruthy (some i) = true := by simp [intTruthy, hi]
    simp [manage_consumables, h1]
  · intro w cid lim off se so ord h
    simp [manage_consumables, h]
  · intro w i a hc hg
    simp [asset_operations, hc, hg]

/-- Witness for C2 at concrete inputs: a checkout with no `checkout_data`
against a world whose `assets.get 5` succeeds returns the validation
error after exactly that one collaborator call. -/
theorem c2_witness :
    (({} : World).clientErr = none) ∧
    (({} : World).assetsGet 5 = .ok { id := 5 }) ∧
    (asset_operations ({} : World) .checkout 5 none none none)
      = (failEnv "checkout_data is required for checkout action", [.assetsGet 5]) :=
  ⟨rfl, rfl,
    c2_required_field_validation.2.2.2.2.2.2.2.2.2.2.2.2.2.2.2
      ({} : World) 5 { id := 5 } rfl rfl⟩

/-- Does string `s` begin with `p`?  Character-list model of Python's
`str.startswith`. -/
def beginsWith (p s : String) : Bool :=
  p.data.isPrefixOf s.data

theorem beginsWith_append (p m : String) : beginsWith p (p ++ m) = true := by
  rw [beginsWith, String.data_append, List.isPrefixOf_iff_prefix]
  exact List.prefix_append _ _

theorem beginsWith_extend (p q m : String) (h : p.data <+: q.data) :
    beginsWith p (q ++ m) = true := by
  rw [beginsWith, String.data_append, List.isPrefixOf_iff_prefix]
  exact h.trans (List.prefix_append _ _)

/-- C4 counterexample: `asset_operations` has no `except` clause for
`SnipeITAuthenticationError`, so an authentication fault from the
collaborator is caught by the base `SnipeITException` handler: the
envelope error is "Snipe-IT error: bad token", which does not begin with
the authentication prefix, and is identical to the envelope produced by
a generic service fault with the same message — the category is not
recoverable from the message. -/
theorem c4_counterexample :
    (asset_operations ({ assetsGet := fun _ => .error (.auth "bad token") } : World)
      .restore 5 none none none).1 = failEnv "Snipe-IT error: bad token" ∧
    beginsWith "Authentication failed:" "Snipe-IT error: bad token" = false ∧
    (asset_operations ({ assetsGet := fun _ => .error (.auth "bad token") } : World)
      .restore 5 none none none).1
      = (asset_operations
          ({ assetsGet := fun _ => .error (.snipe "bad token") } : World)
          .restore 5 none none none).1 :=
  ⟨rfl, by decide, rfl⟩

/-- C4 amended: `manage_assets` and `manage_consumables` render each of
the four named fault categories with its own distinct prefix
("… not found:", "Authentication failed:", "Validation error:",
"Snipe-IT error:"), so there the category is recoverable; the remaining
dispatchers distinguish only not-found ("Asset not found:" — "Not
found:" for `asset_files`) from every other snipeit fault, which all
surface with the generic "Snipe-IT error:" prefix.  The last two
conjuncts exercise this end to end on faulting collaborators. -/
theorem c4_error_category_labels :
    (∀ m, mapErrManageAssets (.notFound m) = failEnv ("Asset not found: " ++ m) ∧
      mapErrManageAssets (.auth m) = failEnv ("Authentication failed: " ++ m) ∧
      mapErrManageAssets (.validation m) = failEnv ("Validation error: " ++ m) ∧
      mapErrManageAssets (.snipe m) = failEnv ("Snipe-IT error: " ++ m)) ∧
    (∀ m, mapErrConsumables (.notFound m) = failEnv ("Consumable not found: " ++ m) ∧
      mapErrConsumables (.auth m) = failEnv ("Authentication failed: " ++ m) ∧
      mapErrConsumables (.validation m) = failEnv ("Validation error: " ++ m) ∧
      mapErrConsumables (.snipe m) = failEnv ("Snipe-IT error: " ++ m)) ∧
    (∀ m, mapErrAssetScoped (.notFound m) = failEnv ("Asset not found: " ++ m) ∧
      mapErrAssetScoped (.auth m) = failEnv ("Snipe-IT error: " ++ m) ∧
      mapErrAssetScoped (.validation m) = failEnv ("Snipe-IT error: " ++ m) ∧
      mapErrAssetScoped (.snipe m) = failEnv ("Snipe-IT error: " ++ m)) ∧
    (∀ m, mapErrFiles (.notFound m) = failEnv ("Not found: " ++ m) ∧
      mapErrFiles (.auth m) = failEnv ("Snipe-IT error: " ++ m) ∧
      mapErrFiles (.validation m) = failEnv ("Snipe-IT error: " ++ m) ∧
      mapErrFiles (.snipe m) = failEnv ("Snipe-IT error: " ++ m)) ∧
    (∀ m, beginsWith "Authentication failed:" ("Authentication failed: " ++ m) = true ∧
      beginsWith "Validation error:" ("Validation error: " ++ m) = true ∧
      beginsWith "Snipe-IT error:" ("Snipe-IT error: " ++ m) = true) ∧
    (∀ (w : World) m aid,
      (asset_licenses
        { w with
          clientErr := none
          getLicenses := fun _ => .error (.auth m) } aid).1
        = failEnv ("Snipe-IT error: " ++ m)) ∧
    (∀ (w : World) m lim off se so ord,
      (manage_consumables
        { w with
          clientErr := none
          consumablesGet := fun _ => .error (.notFound m) } .get (some 1) none
        lim off se so ord).1 = failEnv ("Consumable not found: " ++ m)) := by
  refine ⟨fun m => ⟨rfl, rfl, rfl, rfl⟩, fun m => ⟨rfl, rfl, rfl, rfl⟩,
    fun m => ⟨rfl, rfl, rfl, rfl⟩, fun m => ⟨rfl, rfl, rfl, rfl⟩, ?_, ?_, ?_⟩
  · intro m
    exact ⟨beginsWith_extend _ _ _ (by decide), beginsWith_extend _ _ _ (by decide),
      beginsWith_extend _ _ _ (by decide)⟩
  · intros; rfl
  · intros; rfl

/-- C8: in `asset_operations` every optional field is forwarded only when
truthy, so a checkin or audit `location_id` of `0`, and empty-string
`note`/`name`/date fields, are silently dropped from the kwargs of the
transition call (checkout keeps only its two mandatory fields) — unlike
the create/update payload builders, which forward supplied `0` and `""`
values.  The last two conjuncts show this end to end: the transition
call in the trace receives empty kwargs. -/
theorem c8_transition_falsy_dropped :
    checkinKwargs (some { note := some "", location_id := some 0 }) = [] ∧
    auditKwargs (some
      { location_id := some 0
        note := some ""
        next_audit_date := some "" }) = [] ∧
    (∀ tt (aid : Int),
      checkoutKwargs
        { checkout_to_type := tt
          assigned_to_id := aid
          expected_checkin := some ""
          checkout_at := some ""
          note := some ""
          name := some "" }
        = [("checkout_to_type", .vStr tt.toStr), ("assigned_to_id", .vInt aid)]) ∧
    AssetData.dumpNonNone { location_id := some 0, notes := some "" }
      = [("notes", .vStr ""), ("location_id", .vInt 0)] ∧
    (∀ (w : World) (i : Int),
      (asset_operations
        { w with
          clientErr := none
          assetsGet := fun j => .ok { id := j } }
        .checkin i none (some { note := some "", location_id := some 0 }) none).2
        = [.assetsGet i, .assetCheckin i []]) ∧
    (∀ (w : World) (i : Int),
      (asset_operations
        { w with
          clientErr := none
          assetsGet := fun j => .ok { id := j } }
        .audit i none none
        (some
          { location_id := some 0
            note := some ""
            next_audit_date := some "" })).2
        = [.assetsGet i, .assetAudit i []]) := by
  refine ⟨rfl, rfl, fun tt aid => rfl, rfl, ?_, ?_⟩
  · intro w i
    simp only [asset_operations]
    split <;> rfl
  · intro w i
    simp only [asset_operations]
    split <;> rfl

/-! Facts about the id-resolution loop of `asset_labels`. -/

theorem resolveAssets_calls (w : World) (ids : List Int) :
    ∀ c ∈ (resolveAssets w ids).2, ∃ i ∈ ids, c = .assetsGet i := by
  induction ids with
  | nil => intro c hc; simp [resolveAssets] at hc
  | cons i rest ih =>
    intro c hc
    simp only [resolveAssets] at hc
    cases hg : w.assetsGet i with
    | error e =>
      rw [hg] at hc
      simp at hc
      exact ⟨i, by simp, hc⟩
    | ok a =>
      rw [hg] at hc
      rcases hr : resolveAssets w rest with ⟨res, t⟩
      rw [hr] at hc
      have ht : c ∈ CollabCall.assetsGet i :: t := by
        cases res <;> simpa using hc
      rcases List.mem_cons.mp ht with h | h
      · exact ⟨i, by simp, h⟩
      · obtain ⟨j, hj, hcj⟩ := ih c (by rw [hr]; exact h)
        exact ⟨j, by simp [hj], hcj⟩

theorem resolveAssets_ok (w : World) :
    ∀ (ids : List Int) (as : List AssetObj),
      (resolveAssets w ids).1 = .ok as → ∀ i ∈ ids, ∃ a, w.assetsGet i = .ok a := by
  intro ids
  induction ids with
  | nil => intro as _ i hi; simp at hi
  | cons j rest ih =>
    intro as h i hi
    simp only [resolveAssets] at h
    cases hg : w.assetsGet j with
    | error e => rw [hg] at h; simp at h
    | ok a =>
      rw [hg] at h
      rcases hr : resolveAssets w rest with ⟨res, t⟩
      rw [hr] at h
      cases res with
      | error e => simp at h
      | ok as2 =>
        rcases List.mem_cons.mp hi with rfl | hmem
        · exact ⟨a, hg⟩
        · exact ih as2 (by rw [hr]) i hmem

theorem resolveAssets_firstErr (w : World) :
    ∀ ids : List Int,
      (∀ i ∈ ids, (∃ a, w.assetsGet i = .ok a) ∨
        ∃ m, w.assetsGet i = .error (.notFound m)) →
      (∃ i ∈ ids, ∃ m, w.assetsGet i = .error (.notFound m)) →
      ∃ m, (resolveAssets w ids).1 = .error (.notFound m) := by
  intro ids
  induction ids with
  | nil => intro _ h; simp at h
  | cons j rest ih =>
    intro hall hsome
    simp only [resolveAssets]
    cases hg : w.assetsGet j with
    | error e =>
      rcases hall j (by simp) with ⟨a, ha⟩ | ⟨m, hm⟩
      · rw [hg] at ha; exact absurd ha (by simp)
      · rw [hg] at hm
        exact ⟨m, by simpa using hm⟩
    | ok a =>
      have hrest : ∃ i ∈ rest, ∃ m, w.assetsGet i = .error (.notFound m) := by
        rcases hsome with ⟨i, hi, m, hm⟩
        rcases List.mem_cons.mp hi with rfl | hmem
        · rw [hg] at hm; exact absurd hm (by simp)
        · exact ⟨i, hmem, m, hm⟩
      obtain ⟨m, hm⟩ := ih (fun i hi => hall i (by simp [hi])) hrest
      rcases hr : resolveAssets w rest with ⟨res, t⟩
      rw [hr] at hm
      cases res with
      | ok as2 => simp at hm
      | error e2 => exact ⟨m, by simpa using hm⟩

theorem resolveAssets_allOk (w : World) (f : Int → AssetObj)
    (h : ∀ i, w.assetsGet i = .ok (f i)) :
    ∀ ids : List Int,
      resolveAssets w ids
        = (.ok (ids.map f), ids.map fun i => .assetsGet i) := by
  intro ids
  induction ids with
  | nil => simp [resolveAssets]
  | cons i rest ih => simp [resolveAssets, h i, ih]

theorem labelsFinish_trace (w : World) (sp : String) (arg : LabelsArg)
    (t : List CollabCall) :
    (labelsFinish w sp arg t).2 = t ++ [.labels sp arg] := by
  unfold labelsFinish
  split <;> rfl

theorem labelsFinish_ok (w : World) (sp : String) (arg : LabelsArg)
    (t : List CollabCall) (p : String) (h : w.labels sp arg = .ok p) :
    labelsFinish w sp arg t = (labelsEnv p, t ++ [.labels sp arg]) := by
  simp only [labelsFinish, h]

theorem labelsFromIds_error (w : World) (ids : List Int) (sp : String)
    (e : SnipeErr) (t : List CollabCall) (h : resolveAssets w ids = (.error e, t)) :
    labelsFromIds w ids sp = (mapErrAssetScoped e, t) := by
  simp only [labelsFromIds, h]

theorem labelsFromIds_ok (w : World) (ids : List Int) (sp : String)
    (as : List AssetObj) (t : List CollabCall)
    (h : resolveAssets w ids = (.ok as, t)) :
    labelsFromIds w ids sp = labelsFinish w sp (.assets as) t := by
  simp only [labelsFromIds, h]

theorem asset_labels_clientErr (w : World) (aids : Option (List Int))
    (tags : Option (List String)) (sp : String) (e : SnipeErr)
    (hc : w.clientErr = some e) :
    asset_labels w aids tags sp = (mapErrAssetScoped e, []) := by
  simp only [asset_labels, hc]

theorem asset_labels_ids (w : World) (ids : List Int)
    (tags : Option (List String)) (sp : String) (hc : w.clientErr = none)
    (hl : listTruthy (some ids) = true) :
    asset_labels w (some ids) tags sp = labelsFromIds w ids sp := by
  simp only [asset_labels, hc, hl, Bool.not_true, Bool.false_and,
    Bool.false_eq_true, if_false, if_true, Option.getD_some]

theorem asset_labels_tags (w : World) (aids : Option (List Int))
    (ts : List String) (sp : String) (hc : w.clientErr = none)
    (h1 : listTruthy aids = false) (hl : listTruthy (some ts) = true) :
    asset_labels w aids (some ts) sp = labelsFinish w sp (.tags ts) [] := by
  simp [asset_labels, hc, h1, hl, Option.getD_some]

/-- C7: `asset_labels` (against a configured client) fails with the fixed
error and no collaborator call when both id and tag lists are falsy;
with a non-empty id list the trace consists only of per-id lookups
possibly followed by one label-generation call on resolved assets, and
the generation call occurs only if every listed id resolved; if some id
is missing (not-found) the envelope is the "Asset not found:" failure
and the trace contains only lookups — no label was generated; with only
tags the single generation call receives the raw tags unresolved; and on
success the envelope carries the save path returned by the generation
call. -/
theorem c7_labels_resolution :
    (∀ (w : World) aids tags sp, listTruthy aids = false → listTruthy tags = false →
      asset_labels { w with clientErr := none } aids tags sp
        = (failEnv "Either asset_ids or asset_tags must be provided", [])) ∧
    (∀ (w : World) (ids : List Int) tags sp, w.clientErr = none → ids ≠ [] →
      (∀ c ∈ (asset_labels w (some ids) tags sp).2,
        (∃ i ∈ ids, c = .assetsGet i) ∨ ∃ as, c = .labels sp (.assets as)) ∧
      ((∃ as, CollabCall.labels sp (.assets as) ∈ (asset_labels w (some ids) tags sp).2) →
        ∀ i ∈ ids, ∃ a, w.assetsGet i = .ok a)) ∧
    (∀ (w : World) (ids : List Int) tags sp, w.clientErr = none → ids ≠ [] →
      (∀ i ∈ ids, (∃ a, w.assetsGet i = .ok a) ∨
        ∃ m, w.assetsGet i = .error (.notFound m)) →
      (∃ i ∈ ids, ∃ m, w.assetsGet i = .error (.notFound m)) →
      (∃ m, (asset_labels w (some ids) tags sp).1 = failEnv ("Asset not found: " ++ m)) ∧
      (∀ c ∈ (asset_labels w (some ids) tags sp).2, ∃ i ∈ ids, c = .assetsGet i)) ∧
    (∀ (w : World) aids (ts : List String) sp, listTruthy aids = false → ts ≠ [] →
      (asset_labels { w with clientErr := none } aids (some ts) sp).2
        = [.labels sp (.tags ts)]) ∧
    (∀ (w : World) (f : Int → AssetObj) (ids : List Int) tags sp p,
      (∀ i, w.assetsGet i = .ok (f i)) → ids ≠ [] →
      w.labels sp (.assets (ids.map f)) = .ok p →
      (asset_labels { w with clientErr := none } (some ids) tags sp)
        = (labelsEnv p,
           (ids.map fun i => .assetsGet i) ++ [.labels sp (.assets (ids.map f))]) ∧
      (labelsEnv p).lookup "saved_to" = some (.vStr p)) := by
  refine ⟨?_, ?_, ?_, ?_, ?_⟩
  · intro w aids tags sp h1 h2
    simp [asset_labels, h1, h2]
  · intro w ids tags sp hc hne
    have hl : listTruthy (some ids) = true := by
      cases ids with
      | nil => exact absurd rfl hne
      | cons a l => rfl
    rw [asset_labels_ids w ids tags sp hc hl]
    rcases hr : resolveAssets w ids with ⟨res, t⟩
    have hcalls : ∀ c ∈ t, ∃ i ∈ ids, c = .assetsGet i := by
      intro c hcm
      refine resolveAssets_calls w ids c ?_
      rw [hr]
      exact hcm
    cases res with
    | error e =>
      rw [labelsFromIds_error w ids sp e t hr]
      refine ⟨fun c hcm => Or.inl (hcalls c hcm), ?_⟩
      intro ⟨as, hmem⟩
      obtain ⟨i, _, hci⟩ := hcalls _ hmem
      exact absurd hci (by simp)
    | ok as =>
      rw [labelsFromIds_ok w ids sp as t hr]
      have hok : ∀ i ∈ ids, ∃ a, w.assetsGet i = .ok a := by
        refine resolveAssets_ok w ids as ?_
        rw [hr]
      refine ⟨?_, fun _ => hok⟩
      intro c hcm
      rw [labelsFinish_trace] at hcm
      rcases List.mem_append.mp hcm with h | h
      · exact Or.inl (hcalls c h)
      · exact Or.inr ⟨as, by simpa using h⟩
  · intro w ids tags sp hc hne hall hsome
    have hl : listTruthy (some ids) = true := by
      cases ids with
      | nil => exact absurd rfl hne
      | cons a l => rfl
    obtain ⟨m, hm⟩ := resolveAssets_firstErr w ids hall hsome
    rw [asset_labels_ids w ids tags sp hc hl]
    rcases hr : resolveAssets w ids with ⟨res, t⟩
    rw [hr] at hm
    have hcalls : ∀ c ∈ t, ∃ i ∈ ids, c = .assetsGet i := by
      intro c hcm
      refine resolveAssets_calls w ids c ?_
      rw [hr]
      exact hcm
    cases res with
    | ok as2 => simp at hm
    | error e =>
      obtain rfl : e = .notFound m := by simpa using hm
      rw [labelsFromIds_error w ids sp _ t hr]
      exact ⟨⟨m, rfl⟩, fun c hcm => hcalls c hcm⟩
  · intro w aids ts sp h1 hne
    have hl : listTruthy (some ts) = true := by
      cases ts with
      | nil => exact absurd rfl hne
      | cons a l => rfl
    rw [asset_labels_tags _ aids ts sp rfl h1 hl, labelsFinish_trace]
    rfl
  · intro w f ids tags sp p hget hne hlab
    have hl : listTruthy (some ids) = true := by
      cases ids with
      | nil => exact absurd rfl hne
      | cons a l => rfl
    have hres := resolveAssets_allOk { w with clientErr := none } f
      (fun i => hget i) ids
    refine ⟨?_, by simp [labelsEnv, List.lookup]⟩
    rw [asset_labels_ids _ ids tags sp rfl hl, labelsFromIds_ok _ ids sp _ _ hres,
      labelsFinish_ok { w with clientErr := none } sp (.assets (ids.map f)) _ p hlab]

/-- Witness for C7 at concrete inputs: ids `[1, 2]` against the
default all-ok world resolve to two lookups followed by one
label-generation call on the resolved assets, and the success envelope
carries the save path. -/
theorem c7_witness :
    (∀ i : Int, ({} : World).assetsGet i = .ok { id := i }) ∧
    (([1, 2] : List Int) ≠ []) ∧
    (({} : World).labels "/tmp/x.pdf"
      (.assets (([1, 2] : List Int).map fun i => { id := i })) = .ok "/tmp/x.pdf") ∧
    ((asset_labels { ({} : World) with clientErr := none } (some [1, 2]) none "/tmp/x.pdf")
      = (labelsEnv "/tmp/x.pdf",
         (([1, 2] : List Int).map fun i => .assetsGet i)
           ++ [.labels "/tmp/x.pdf" (.assets (([1, 2] : List Int).map fun i => { id := i }))]) ∧
     (labelsEnv "/tmp/x.pdf").lookup "saved_to" = some (.vStr "/tmp/x.pdf")) :=
  ⟨fun _ => rfl, by decide, rfl,
    c7_labels_resolution.2.2.2.2 ({} : World) (fun i => { id := i }) [1, 2] none
      "/tmp/x.pdf" "/tmp/x.pdf" (fun _ => rfl) (by decide) rfl⟩

/-- Does a collaborator call pass asset tags to label generation? -/
def usesTags : CollabCall → Bool
  | .labels _ (.tags _) => true
  | _ => false

/-- C10: when `asset_ids` is non-empty the supplied `asset_tags` are
ignored entirely: the result (envelope and trace) does not depend on
them, no call in the trace passes tags to label generation, and with an
all-resolving collaborator the trace is exactly the per-id lookups
followed by label generation on the resolved asset objects. -/
theorem c10_tags_ignored_when_ids_present :
    (∀ (w : World) (ids : List Int) t1 t2 sp, ids ≠ [] →
      asset_labels w (some ids) t1 sp = asset_labels w (some ids) t2 sp) ∧
    (∀ (w : World) (ids : List Int) tags sp, ids ≠ [] →
      ∀ c ∈ (asset_labels w (some ids) tags sp).2, usesTags c = false) ∧
    (∀ (w : World) (f : Int → AssetObj) (ids : List Int) tags sp,
      (∀ i, w.assetsGet i = .ok (f i)) → ids ≠ [] →
      (asset_labels { w with clientErr := none } (some ids) tags sp).2
        = (ids.map fun i => .assetsGet i)
            ++ [.labels sp (.assets (ids.map f))]) := by
  refine ⟨?_, ?_, ?_⟩
  · intro w ids t1 t2 sp hne
    have hl : listTruthy (some ids) = true := by
      cases ids with
      | nil => exact absurd rfl hne
      | cons a l => rfl
    rcases hcl : w.clientErr with _ | e
    · rw [asset_labels_ids w ids t1 sp hcl hl, asset_labels_ids w ids t2 sp hcl hl]
    · rw [asset_labels_clientErr w _ t1 sp e hcl,
        asset_labels_clientErr w _ t2 sp e hcl]
  · intro w ids tags sp hne c hcmem
    have hl : listTruthy (some ids) = true := by
      cases ids with
      | nil => exact absurd rfl hne
      | cons a l => rfl
    rcases hcl : w.clientErr with _ | e
    · rw [asset_labels_ids w ids tags sp hcl hl] at hcmem
      rcases hr : resolveAssets w ids with ⟨res, t⟩
      have hcalls : ∀ d ∈ t, ∃ i ∈ ids, d = CollabCall.assetsGet i := by
        intro d hdm
        refine resolveAssets_calls w ids d ?_
        rw [hr]
        exact hdm
      cases res with
      | error e2 =>
        rw [labelsFromIds_error w ids sp e2 t hr] at hcmem
        obtain ⟨i, _, rfl⟩ := hcalls c hcmem
        rfl
      | ok as =>
        rw [labelsFromIds_ok w ids sp as t hr, labelsFinish_trace] at hcmem
        rcases List.mem_append.mp hcmem with h | h
        · obtain ⟨i, _, rfl⟩ := hcalls c h
          rfl
        · obtain rfl : c = CollabCall.labels sp (.assets as) := by simpa using h
          rfl
    · rw [asset_labels_clientErr w _ tags sp e hcl] at hcmem
      simp at hcmem
  · intro w f ids tags sp hget hne
    have hl : listTruthy (some ids) = true := by
      cases ids with
      | nil => exact absurd rfl hne
      | cons a l => rfl
    have hres := resolveAssets_allOk { w with clientErr := none } f
      (fun i => hget i) ids
    rw [asset_labels_ids _ ids tags sp rfl hl, labelsFromIds_ok _ ids sp _ _ hres,
      labelsFinish_trace]

/-- Witness for C10 at concrete inputs: with ids `[3]`, supplying tags
`["T"]` or no tags at all produces the identical envelope and trace. -/
theorem c10_witness :
    (([3] : List Int) ≠ []) ∧
    asset_labels ({} : World) (some [3]) (some ["T"]) "/tmp/l.pdf"
      = asset_labels ({} : World) (some [3]) none "/tmp/l.pdf" :=
  ⟨by decide,
    c10_tags_ignored_when_ids_present.1 ({} : World) [3] (some ["T"]) none
      "/tmp/l.pdf" (by decide)⟩

end SnipeMCP
